import Mathlib

/-!
Verification development for the rksi_shedule_spo schedule application.

It covers the three subsystems the specification singles out:
sentinel-based PATCH semantics for the event description field,
the client-side search/filter evaluator, and the photo upload
orchestrator with bounded retry on network-class failures.
-/

namespace RksiSchedule

/-! ## String primitives

Executable character-list models of the JavaScript and Python string
primitives the sources use, chosen so that every definition below
evaluates inside the kernel. -/

/-- Strip leading and trailing whitespace from a character list. -/
def trimChars (cs : List Char) : List Char :=
  ((cs.dropWhile Char.isWhitespace).reverse.dropWhile Char.isWhitespace).reverse

/-- Model of JavaScript String.prototype.trim and Python str.strip. -/
def strTrim (s : String) : String :=
  String.mk (trimChars s.toList)

/-- Model of JavaScript String.prototype.toLowerCase. -/
def lowerString (s : String) : String :=
  String.mk (s.toList.map Char.toLower)

/-! ## Partial-update (PATCH) payload states for the description field -/

/-- Wire-level state of the description key in a PATCH request body:
the key may be absent, present with JSON null, or present with a string. -/
inductive DescPayload where
  | absent
  | presentNull
  | presentStr (s : String)
  deriving DecidableEq

/-- Value of the description field after Pydantic validation: the UNSET
sentinel (key absent), None (clear), or a normalized string. -/
inductive DescValue where
  | unset
  | cleared
  | value (s : String)
  deriving DecidableEq

/-- Modelled from the spec: the backend schema validator
EventPublicUpdate.normalize_description (backend/app/schemas/event.py is not
under src/; reconstructed from the code listing in
src/docs/plans/2026-01-26-fix-empty-description-save.md lines 193-209).
UNSET stays UNSET, null stays None, a string is stripped and an empty
result becomes None. -/
def normalize_description : DescPayload → DescValue
  | .absent => .unset
  | .presentNull => .cleared
  | .presentStr v =>
    let stripped := strTrim v
    if stripped = "" then .cleared else .value stripped

/-- Modelled from the spec: the description assignment in the backend
update_event handler (backend/app/api/events.py is not under src/;
reconstructed from src/docs/plans/2026-01-26-fix-empty-description-save.md
lines 407-411): the stored description is overwritten with the validated
field value unless that value is the UNSET sentinel. -/
def update_event (stored : Option String) (payload : DescPayload) : Option String :=
  match normalize_description payload with
  | .unset => stored
  | .cleared => none
  | .value s => some s

/-- Modelled from the spec: the administrator EventUpdate schema declares
every field as a plain optional with None default and no UNSET sentinel
(src/docs/plans/2026-01-26-fix-empty-description-save.md lines 180-190).
This is the value such a field parses to for each wire-level state. -/
def adminEventUpdateField : DescPayload → Option String
  | .absent => none
  | .presentNull => none
  | .presentStr s => some s

/-- The three-state classification and its three effects, as the spec
states them: absent leaves the stored value untouched, explicit null and
whitespace-only strings clear it, non-empty text overwrites it trimmed. -/
def threeStateSemantics (upd : Option String → DescPayload → Option String) : Prop :=
  (∀ st, upd st DescPayload.absent = st) ∧
  (∀ st, upd st DescPayload.presentNull = none) ∧
  (∀ st s, strTrim s = "" → upd st (DescPayload.presentStr s) = none) ∧
  (∀ st s, strTrim s ≠ "" → upd st (DescPayload.presentStr s) = some (strTrim s))

/-- An update semantics is implementable on the administrator endpoint only
if it depends on the request through what the admin EventUpdate schema
field parses to. -/
def factorsThroughAdminSchema (upd : Option String → DescPayload → Option String) : Prop :=
  ∃ g : Option String → Option String → Option String,
    ∀ st p, upd st p = g st (adminEventUpdateField p)

/-- Request body built by eventsApi.updateDescription (src/unnamed/part_002):
the body object always carries the description key, holding either the
given string or JSON null. -/
def updateDescriptionBody (description : Option String) : DescPayload :=
  match description with
  | none => DescPayload.presentNull
  | some s => DescPayload.presentStr s

/-! ## Description editor modal (src/unnamed/part_014) -/

/-- Outcome of a save action in the description editor modal: either the
modal just closes, or the save callback is invoked with the new value and
the modal closes afterwards. -/
inductive SaveAction where
  | closeOnly
  | saveThenClose (newValue : Option String)
  deriving DecidableEq

/-- DescriptionEditorModal.handleSave: trim the textarea text, turn an
empty result into null, and skip the save entirely when the trimmed text
equals the session's original value. -/
def handleSave (text originalValue : String) : SaveAction :=
  let trimmedText := strTrim text
  let newValue : Option String := if trimmedText = "" then none else some trimmedText
  if trimmedText = originalValue then SaveAction.closeOnly
  else SaveAction.saveThenClose newValue

/-- DescriptionEditorModal hasChanges flag: the trimmed text differs from
the original value. -/
def hasChanges (text originalValue : String) : Bool :=
  !(strTrim text == originalValue)

/-- Disabled state of the save button: disabled while saving or when there
are no changes. -/
def saveButtonDisabled (saving : Bool) (text originalValue : String) : Bool :=
  saving || !(hasChanges text originalValue)

/-! ## Search/filter evaluator (src/unnamed/part_018, PublicViewPage.tsx) -/

/-- Searchable part of an event record, as the frontend receives it:
name is required, the other four searched fields are nullable. -/
structure Event where
  id : Nat
  name : String
  event_date : Option String
  responsible : Option String
  location : Option String
  description : Option String
  deriving DecidableEq

/-- A category together with its events, as rendered by the pages. -/
structure CategoryWithEvents where
  id : Nat
  name : String
  month : Nat
  events : List Event
  deriving DecidableEq

/-- Character-list model of the JavaScript String.prototype.includes
contiguous-substring test. -/
def charsInclude (pat : List Char) : List Char → Bool
  | [] => pat.isPrefixOf []
  | c :: rest => pat.isPrefixOf (c :: rest) || charsInclude pat rest

/-- String.prototype.includes: the pattern occurs contiguously in s. -/
def stringIncludes (s pat : String) : Bool :=
  charsInclude pat.toList s.toList

/-- eventMatchesSearch: the lower-cased query occurs in the name or in any
of the four optional fields, where an absent field never matches. -/
def eventMatchesSearch (event : Event) (query : String) : Bool :=
  let searchLower := lowerString query
  stringIncludes (lowerString event.name) searchLower ||
    (match event.responsible with
     | some r => stringIncludes (lowerString r) searchLower
     | none => false) ||
    (match event.location with
     | some l => stringIncludes (lowerString l) searchLower
     | none => false) ||
    (match event.description with
     | some d => stringIncludes (lowerString d) searchLower
     | none => false) ||
    (match event.event_date with
     | some d => stringIncludes (lowerString d) searchLower
     | none => false)

/-- filteredCategories: an empty (after trim) query returns the input
unchanged; otherwise every category is restricted to its matching events
and categories left with no events are dropped. -/
def filteredCategories (categories : List CategoryWithEvents) (searchQuery : String) :
    List CategoryWithEvents :=
  if strTrim searchQuery = "" then categories
  else
    (categories.map (fun category =>
        { category with
          events := category.events.filter (fun event => eventMatchesSearch event searchQuery) })).filter
      (fun category => category.events.length > 0)

/-- Declarative matching predicate from the spec: the case-folded query is
a contiguous substring of the name or of a present optional field. -/
def matchesSpec (event : Event) (query : String) : Prop :=
  (lowerString query).toList <:+: (lowerString event.name).toList ∨
  (∃ r, event.responsible = some r ∧ (lowerString query).toList <:+: (lowerString r).toList) ∨
  (∃ l, event.location = some l ∧ (lowerString query).toList <:+: (lowerString l).toList) ∨
  (∃ d, event.description = some d ∧ (lowerString query).toList <:+: (lowerString d).toList) ∨
  (∃ d, event.event_date = some d ∧ (lowerString query).toList <:+: (lowerString d).toList)

/-! ## Photo upload orchestrator (src/frontend/src/components/SearchInput.tsx,
PhotoUploader with bounded retry) -/

/-- Client-side view of a file handed to the uploader: its name and its
reported content type. -/
structure FileInfo where
  name : String
  type : String
  deriving DecidableEq

/-- Content types the uploader accepts (ALLOWED_TYPES). -/
def ALLOWED_TYPES : List String := [("image/jpeg"), ("image/png")]

/-- Maximum number of upload attempts per invocation (MAX_RETRY_ATTEMPTS). -/
def MAX_RETRY_ATTEMPTS : Nat := 3

/-- Fixed delay in milliseconds between retry attempts (RETRY_DELAY_MS). -/
def RETRY_DELAY_MS : Nat := 1500

/-- Terminal message shown when the retry budget is exhausted on
network-class failures. -/
def networkErrorMessage : String := "Ошибка сети. Попробуйте позже."

/-- Terminal message shown for non-network upload failures. -/
def genericErrorMessage : String := "Ошибка загрузки"

/-- Abstraction of a value thrown by the transport: an optional code
property (as on Axios errors), whether the value is an Error instance,
and its message when it is one. -/
structure UploadError where
  code : Option String
  isErrorInstance : Bool
  message : String
  deriving DecidableEq

/-- isNetworkError: a nullish thrown value is not a network error; an
object whose code is ERR_NETWORK, ECONNABORTED or ETIMEDOUT is; an Error
instance whose lower-cased message mentions network, timeout, connection
or fetch is; anything else is not. -/
def isNetworkError (error : Option UploadError) : Bool :=
  match error with
  | none => false
  | some err =>
    (match err.code with
     | some c => c = "ERR_NETWORK" || c = "ECONNABORTED" || c = "ETIMEDOUT"
     | none => false) ||
    (err.isErrorInstance &&
      (let m := lowerString err.message
       stringIncludes m ("network") || stringIncludes m ("timeout") ||
         stringIncludes m ("connection") || stringIncludes m ("fetch")))

/-- Outcome of one transport attempt: success with the server-reported
per-file error strings, or a thrown error. -/
inductive AttemptResult where
  | ok (serverErrors : List String)
  | err (e : UploadError)
  deriving DecidableEq

/-- Terminal state of one upload invocation. -/
inductive UploadFinal where
  | succeeded
  | failed
  deriving DecidableEq

/-- Observable outcome of one handleUpload invocation: terminal state,
number of transport attempts made, the inter-attempt delays waited, the
attempt numbers at which progress was reset to zero for a retry, the
terminal error message if any, server-reported warnings on success,
client-side per-file rejection messages, and the batch sent. -/
structure RunResult where
  status : UploadFinal
  attempts : Nat
  delays : List Nat
  resets : List Nat
  message : Option String
  warnings : List String
  perFileErrors : List String
  batch : List FileInfo
  deriving DecidableEq

/-- validateFiles: partition the input files, keeping those whose content
type is allowed and producing one formatted error string per rejected
file, both in input order. -/
def validateFiles : List FileInfo → List FileInfo × List String
  | [] => ([], [])
  | f :: fs =>
    let rest := validateFiles fs
    if ALLOWED_TYPES.contains f.type then (f :: rest.1, rest.2)
    else (rest.1, (f.name ++ (": неверный формат (только JPEG и PNG)")) :: rest.2)

/-- The retry loop of PhotoUploader.handleUpload. The fuel argument is the
number of loop iterations the while condition still permits
(MAX_RETRY_ATTEMPTS - attempt + 1), so fuel zero is the loop exiting into
the terminal error block. Each iteration marks a progress reset when the
attempt number exceeds one, consults the transport, succeeds on an ok
response, schedules a fixed delay and retries on a network-class error
while the budget allows, and otherwise falls through to the terminal
error block whose message depends on whether the last error was
network-class. -/
def loopGo (transport : Nat → AttemptResult) (fuel attempt : Nat)
    (lastError : Option UploadError) (delays resets : List Nat) : RunResult :=
  match fuel with
  | 0 =>
    { status := UploadFinal.failed, attempts := attempt - 1, delays := delays,
      resets := resets,
      message := some (if isNetworkError lastError then networkErrorMessage
                       else genericErrorMessage),
      warnings := [], perFileErrors := [], batch := [] }
  | fuel + 1 =>
    let resets2 := if attempt > 1 then resets ++ [attempt] else resets
    match transport attempt with
    | AttemptResult.ok warns =>
      { status := UploadFinal.succeeded, attempts := attempt, delays := delays,
        resets := resets2, message := none, warnings := warns,
        perFileErrors := [], batch := [] }
    | AttemptResult.err e =>
      if isNetworkError (some e) ∧ attempt < MAX_RETRY_ATTEMPTS then
        loopGo transport fuel (attempt + 1) (some e) (delays ++ [RETRY_DELAY_MS]) resets2
      else
        { status := UploadFinal.failed, attempts := attempt, delays := delays,
          resets := resets2,
          message := some (if isNetworkError (some e) then networkErrorMessage
                           else genericErrorMessage),
          warnings := [], perFileErrors := [], batch := [] }

/-- PhotoUploader.handleUpload: validate the batch, report each rejected
file immediately, return without any network call when no file is valid,
and otherwise run the retry loop on the valid subset. -/
def handleUpload (files : List FileInfo) (transport : Nat → AttemptResult) : RunResult :=
  if (validateFiles files).1.length = 0 then
    { status := UploadFinal.failed, attempts := 0, delays := [], resets := [],
      message := none, warnings := [], perFileErrors := (validateFiles files).2,
      batch := [] }
  else
    { loopGo transport MAX_RETRY_ATTEMPTS 1 none [] [] with
      perFileErrors := (validateFiles files).2, batch := (validateFiles files).1 }

/-! ## Concrete inputs used by the witnesses -/

/-- A thrown Axios-style network error. -/
def netErr : UploadError := { code := some ("ERR_NETWORK"), isErrorInstance := false, message := "" }

/-- A thrown application-level error: no code, not classified as network. -/
def appErr : UploadError := { code := none, isErrorInstance := false, message := ("rejected") }

/-- Two well-typed image files. -/
def demoFiles : List FileInfo :=
  [{ name := ("a.jpg"), type := ("image/jpeg") }, { name := ("b.png"), type := ("image/png") }]

/-- Three files of which the second has a disallowed content type. -/
def mixedFiles : List FileInfo :=
  [{ name := ("a.jpg"), type := ("image/jpeg") },
   { name := ("notes.txt"), type := ("text/plain") },
   { name := ("b.png"), type := ("image/png") }]

/-- A single file with a disallowed content type. -/
def badFiles : List FileInfo := [{ name := ("notes.txt"), type := ("text/plain") }]

/-- A transport failing with a network error on attempts one and two and
succeeding on attempt three. -/
def transportThirdOk : Nat → AttemptResult :=
  fun n => if n = 3 then AttemptResult.ok [] else AttemptResult.err netErr

/-- A transport failing with a network error on every attempt. -/
def transportAlwaysNet : Nat → AttemptResult := fun _ => AttemptResult.err netErr

/-- A transport failing with an application-level error on every attempt. -/
def transportAppFail : Nat → AttemptResult := fun _ => AttemptResult.err appErr

/-- A transport that always succeeds with no server-side errors. -/
def transportOk : Nat → AttemptResult := fun _ => AttemptResult.ok []

/-- A demo event located in hall A. -/
def demoEventA : Event :=
  { id := 1, name := ("Conference"), event_date := some ("12.03"),
    responsible := none, location := some ("Hall A"), description := none }

/-- A demo event located in hall B. -/
def demoEventB : Event :=
  { id := 2, name := ("Seminar"), event_date := none,
    responsible := some ("Ivanov"), location := some ("Hall B"), description := none }

/-- One demo category holding both demo events. -/
def demoCategories : List CategoryWithEvents :=
  [{ id := 1, name := ("March"), month := 3, events := [demoEventA, demoEventB] }]

/-! ## Helper lemmas -/

/-- charsInclude decides contiguous-substring occurrence. -/
theorem charsInclude_iff (pat hay : List Char) :
    charsInclude pat hay = true ↔ pat <:+: hay := by
  induction hay with
  | nil =>
    simp [charsInclude, List.isPrefixOf_iff_prefix, List.prefix_nil, List.infix_nil]
  | cons c rest ih =>
    simp [charsInclude, Bool.or_eq_true, List.isPrefixOf_iff_prefix, ih,
      List.infix_cons_iff]

/-- A filtered list is nonempty exactly when some element satisfies the
predicate, stated on the Bool side. -/
theorem filter_length_pos_eq_any {α : Type} (l : List α) (p : α → Bool) :
    decide (0 < (l.filter p).length) = l.any p := by
  induction l with
  | nil => simp
  | cons a t ih =>
    by_cases h : p a = true <;> simp [List.filter_cons, h, ← ih]

/-! ## Claim theorems -/

/-- C1: three-way PATCH distinction for the description field. For every
stored record, a payload with the description key absent leaves the stored
description unchanged; a payload with description present and null clears
it; a whitespace-only string behaves identically to present-and-null; and
non-empty text sets the stored description to the text with surrounding
whitespace trimmed. -/
theorem description_patch_three_way (stored : Option String) (s : String) :
    update_event stored DescPayload.absent = stored ∧
    update_event stored DescPayload.presentNull = none ∧
    (strTrim s = "" →
      update_event stored (DescPayload.presentStr s) =
        update_event stored DescPayload.presentNull) ∧
    (strTrim s ≠ "" →
      update_event stored (DescPayload.presentStr s) = some (strTrim s)) := by
  refine ⟨rfl, rfl, ?_, ?_⟩ <;> intro h <;>
    simp [update_event, normalize_description, h]

/-- Witness for C1 at the spec's own scenario record. -/
theorem description_patch_three_way_witness :
    update_event (some ("Initial description")) DescPayload.absent =
        some ("Initial description") ∧
    update_event (some ("Initial description")) DescPayload.presentNull = none ∧
    update_event (some ("Initial description")) (DescPayload.presentStr ("   ")) = none ∧
    update_event (some ("Initial description")) (DescPayload.presentStr (" New description ")) =
        some (strTrim (" New description ")) := by
  obtain ⟨h1, h2, -, h4⟩ :=
    description_patch_three_way (some ("Initial description")) (" New description ")
  obtain ⟨-, -, h3, -⟩ :=
    description_patch_three_way (some ("Initial description")) ("   ")
  exact ⟨h1, h2, (h3 (by decide)).trans h2, h4 (by decide)⟩

/-- C2, counterexample: the three-state classification cannot apply to the
administrator-facing endpoint, because the admin EventUpdate schema parses
a missing key and an explicit null to the same value; with stored
description some x, absent must preserve some x while null must clear it,
which no function of the parsed value can do. -/
theorem admin_uniform_three_state_impossible :
    ¬ ∃ upd, threeStateSemantics upd ∧ factorsThroughAdminSchema upd := by
  rintro ⟨upd, ⟨habs, hnull, -, -⟩, g, hg⟩
  have h1 : upd (some ("x")) DescPayload.absent = some ("x") := habs _
  have h2 : upd (some ("x")) DescPayload.presentNull = none := hnull _
  rw [hg] at h1 h2
  have : adminEventUpdateField DescPayload.absent =
      adminEventUpdateField DescPayload.presentNull := rfl
  rw [this] at h1
  exact Option.noConfusion (h1.symm.trans h2)

/-- C2, amended: the sentinel-based three-state classification holds for
the editor-facing description update, while the administrator-facing
EventUpdate schema collapses the absent and explicit-null states into the
same parsed value, so the uniformity does not extend to it. -/
theorem admin_vs_editor_sentinel_amended :
    threeStateSemantics update_event ∧
    adminEventUpdateField DescPayload.absent =
      adminEventUpdateField DescPayload.presentNull := by
  refine ⟨⟨fun st => rfl, fun st => rfl, ?_, ?_⟩, rfl⟩ <;> intro st s h <;>
    simp [update_event, normalize_description, h]

/-- C9: the editor-facing client can never produce the absent state for
the description field; the PATCH body built by eventsApi.updateDescription
always carries the description key, so after validation the field is never
the UNSET sentinel. -/
theorem updateDescription_never_absent (description : Option String) :
    updateDescriptionBody description ≠ DescPayload.absent ∧
    normalize_description (updateDescriptionBody description) ≠ DescValue.unset := by
  cases description with
  | none => exact ⟨fun h => DescPayload.noConfusion h, fun h => DescValue.noConfusion h⟩
  | some s =>
    refine ⟨fun h => DescPayload.noConfusion h, ?_⟩
    simp only [updateDescriptionBody, normalize_description]
    split <;> intro h <;> exact DescValue.noConfusion h

/-- C10: no-change edits never issue a write; when the trimmed textarea
text equals the session's original value, handleSave only closes the modal
and the save button is disabled regardless of the saving flag. -/
theorem no_change_save_no_write (text originalValue : String)
    (h : strTrim text = originalValue) :
    handleSave text originalValue = SaveAction.closeOnly ∧
    (∀ saving, saveButtonDisabled saving text originalValue = true) := by
  constructor
  · simp [handleSave, h]
  · intro saving
    simp [saveButtonDisabled, hasChanges, h]

/-- Witness for C10: editing text back to a whitespace-padded copy of the
original value closes without saving and keeps the button disabled. -/
theorem no_change_save_no_write_witness :
    handleSave ("  same text ") ("same text") = SaveAction.closeOnly ∧
    (∀ saving, saveButtonDisabled saving ("  same text ") ("same text") = true) :=
  no_change_save_no_write ("  same text ") ("same text") (by decide)

/-- C7: evaluator identity law; filtering any collection by an empty or
whitespace-only query returns the input collection itself, in contents and
order. -/
theorem search_empty_query_identity (categories : List CategoryWithEvents)
    (searchQuery : String) (hq : strTrim searchQuery = "") :
    filteredCategories categories searchQuery = categories := by
  simp [filteredCategories, hq]

/-- Witness for C7 on the demo collection and a whitespace-only query. -/
theorem search_empty_query_identity_witness :
    filteredCategories demoCategories ("   ") = demoCategories :=
  search_empty_query_identity demoCategories ("   ") (by decide)

/-- C8: evaluator output characterization for a non-empty query. The
boolean match test holds exactly when the case-folded query occurs in the
name or in a present optional field (an absent field never matches); the
output keeps, in input order, exactly the categories with at least one
matching event, each restricted in order to exactly its matching events;
consequently every output category is nonempty and contains only matching
events. -/
theorem search_filter_characterization (categories : List CategoryWithEvents)
    (searchQuery : String) (hq : strTrim searchQuery ≠ "") :
    (∀ event, eventMatchesSearch event searchQuery = true ↔ matchesSpec event searchQuery) ∧
    filteredCategories categories searchQuery =
      (categories.filter
          (fun c => c.events.any (fun e => eventMatchesSearch e searchQuery))).map
        (fun c =>
          { c with events := c.events.filter (fun e => eventMatchesSearch e searchQuery) }) ∧
    (∀ c ∈ filteredCategories categories searchQuery,
      c.events ≠ [] ∧ ∀ e ∈ c.events, eventMatchesSearch e searchQuery = true) := by
  have part1 : ∀ event,
      eventMatchesSearch event searchQuery = true ↔ matchesSpec event searchQuery := by
    intro event
    obtain ⟨i, nm, dt, rs, lo, de⟩ := event
    cases rs <;> cases lo <;> cases de <;> cases dt <;>
      simp [eventMatchesSearch, matchesSpec, stringIncludes, Bool.or_eq_true,
        charsInclude_iff] <;>
      tauto
  have hmain : filteredCategories categories searchQuery =
      (categories.filter
          (fun c => c.events.any (fun e => eventMatchesSearch e searchQuery))).map
        (fun c =>
          { c with events := c.events.filter (fun e => eventMatchesSearch e searchQuery) }) := by
    rw [filteredCategories, if_neg hq]
    induction categories with
    | nil => rfl
    | cons c cs ih =>
      by_cases h : c.events.any (fun e => eventMatchesSearch e searchQuery) = true
      · simp [List.filter_cons, List.map_cons, filter_length_pos_eq_any, h, ih]
      · simp [List.filter_cons, List.map_cons, filter_length_pos_eq_any, h, ih]
  refine ⟨part1, hmain, ?_⟩
  intro c hc
  rw [hmain] at hc
  obtain ⟨c0, hc0, rfl⟩ := List.mem_map.mp hc
  have hc0' := List.mem_filter.mp hc0
  constructor
  · intro hnil
    have hany : c0.events.any (fun e => eventMatchesSearch e searchQuery) = true := hc0'.2
    rw [← filter_length_pos_eq_any] at hany
    have hnil' : c0.events.filter (fun e => eventMatchesSearch e searchQuery) = [] := hnil
    rw [hnil'] at hany
    simp at hany
  · intro e he
    exact (List.mem_filter.mp he).2

/-- Witness for C8 on the demo collection with a query matching one
event's location case-insensitively. -/
theorem search_filter_characterization_witness :
    (∀ event, eventMatchesSearch event ("hall a") = true ↔ matchesSpec event ("hall a")) ∧
    filteredCategories demoCategories ("hall a") =
      (demoCategories.filter
          (fun c => c.events.any (fun e => eventMatchesSearch e ("hall a")))).map
        (fun c =>
          { c with events := c.events.filter (fun e => eventMatchesSearch e ("hall a")) }) ∧
    (∀ c ∈ filteredCategories demoCategories ("hall a"),
      c.events ≠ [] ∧ ∀ e ∈ c.events, eventMatchesSearch e ("hall a") = true) :=
  search_filter_characterization demoCategories ("hall a") (by decide)

/-- C3: upload orchestrator retry bound. With at least one valid file and
a transport failing with a network-class error on attempts one and two and
succeeding on attempt three, the invocation ends succeeded after exactly
three attempts, with exactly two inter-attempt delays of the fixed
duration, and progress reset to zero at the start of retry attempts two
and three. -/
theorem upload_retry_succeeds_third_attempt (files : List FileInfo)
    (transport : Nat → AttemptResult) (e1 e2 : UploadError) (ws : List String)
    (hv : (validateFiles files).1.length ≠ 0)
    (h1 : transport 1 = AttemptResult.err e1) (hn1 : isNetworkError (some e1) = true)
    (h2 : transport 2 = AttemptResult.err e2) (hn2 : isNetworkError (some e2) = true)
    (h3 : transport 3 = AttemptResult.ok ws) :
    handleUpload files transport =
      { status := UploadFinal.succeeded, attempts := 3,
        delays := [RETRY_DELAY_MS, RETRY_DELAY_MS], resets := [2, 3],
        message := none, warnings := ws,
        perFileErrors := (validateFiles files).2, batch := (validateFiles files).1 } := by
  rw [handleUpload, if_neg hv]
  simp [loopGo, MAX_RETRY_ATTEMPTS, h1, hn1, h2, hn2, h3]

/-- Witness for C3: two valid files against a transport that recovers on
the third attempt. -/
theorem upload_retry_succeeds_third_attempt_witness :
    handleUpload demoFiles transportThirdOk =
      { status := UploadFinal.succeeded, attempts := 3,
        delays := [RETRY_DELAY_MS, RETRY_DELAY_MS], resets := [2, 3],
        message := none, warnings := [],
        perFileErrors := (validateFiles demoFiles).2,
        batch := (validateFiles demoFiles).1 } :=
  upload_retry_succeeds_third_attempt demoFiles transportThirdOk netErr netErr []
    (by decide) (by decide) (by decide) (by decide) (by decide) (by decide)

/-- C4: non-retry on application-level error. With at least one valid file
and a transport whose first attempt throws an error that is not
network-class, the invocation ends failed after exactly one attempt, with
no delay, no progress reset, and the generic failure message. -/
theorem upload_app_error_no_retry (files : List FileInfo)
    (transport : Nat → AttemptResult) (e : UploadError)
    (hv : (validateFiles files).1.length ≠ 0)
    (h1 : transport 1 = AttemptResult.err e) (hn : isNetworkError (some e) = false) :
    handleUpload files transport =
      { status := UploadFinal.failed, attempts := 1, delays := [], resets := [],
        message := some genericErrorMessage, warnings := [],
        perFileErrors := (validateFiles files).2, batch := (validateFiles files).1 } := by
  rw [handleUpload, if_neg hv]
  simp [loopGo, MAX_RETRY_ATTEMPTS, h1, hn]

/-- Witness for C4: two valid files against a transport that always throws
an application-level error. -/
theorem upload_app_error_no_retry_witness :
    handleUpload demoFiles transportAppFail =
      { status := UploadFinal.failed, attempts := 1, delays := [], resets := [],
        message := some genericErrorMessage, warnings := [],
        perFileErrors := (validateFiles demoFiles).2,
        batch := (validateFiles demoFiles).1 } :=
  upload_app_error_no_retry demoFiles transportAppFail appErr
    (by decide) (by decide) (by decide)

/-- C5: retry-budget exhaustion. With at least one valid file and a
transport failing with a network-class error on all three permitted
attempts, the invocation ends failed after exactly three attempts with the
network-specific exhausted-retry message, which differs from the generic
non-network failure message. -/
theorem upload_network_exhaustion (files : List FileInfo)
    (transport : Nat → AttemptResult) (e1 e2 e3 : UploadError)
    (hv : (validateFiles files).1.length ≠ 0)
    (h1 : transport 1 = AttemptResult.err e1) (hn1 : isNetworkError (some e1) = true)
    (h2 : transport 2 = AttemptResult.err e2) (hn2 : isNetworkError (some e2) = true)
    (h3 : transport 3 = AttemptResult.err e3) (hn3 : isNetworkError (some e3) = true) :
    handleUpload files transport =
      { status := UploadFinal.failed, attempts := 3,
        delays := [RETRY_DELAY_MS, RETRY_DELAY_MS], resets := [2, 3],
        message := some networkErrorMessage, warnings := [],
        perFileErrors := (validateFiles files).2, batch := (validateFiles files).1 } ∧
    networkErrorMessage ≠ genericErrorMessage := by
  constructor
  · rw [handleUpload, if_neg hv]
    simp [loopGo, MAX_RETRY_ATTEMPTS, h1, hn1, h2, hn2, h3, hn3]
  · decide

/-- Witness for C5: two valid files against a transport that always throws
a network error. -/
theorem upload_network_exhaustion_witness :
    handleUpload demoFiles transportAlwaysNet =
      { status := UploadFinal.failed, attempts := 3,
        delays := [RETRY_DELAY_MS, RETRY_DELAY_MS], resets := [2, 3],
        message := some networkErrorMessage, warnings := [],
        perFileErrors := (validateFiles demoFiles).2,
        batch := (validateFiles demoFiles).1 } ∧
    networkErrorMessage ≠ genericErrorMessage :=
  upload_network_exhaustion demoFiles transportAlwaysNet netErr netErr netErr
    (by decide) (by decide) (by decide) (by decide) (by decide) (by decide) (by decide)

/-- C6: client-side rejection short-circuit. Validation keeps exactly the
files with an allowed content type and produces, in input order, one error
string per rejected file; those errors are reported on every invocation
regardless of the transport; when no file is valid the invocation makes
zero transport attempts, sends no batch, and ends failed; and when some
file is valid, the batch sent is exactly the valid subset. -/
theorem upload_validation_short_circuit (files : List FileInfo)
    (transport : Nat → AttemptResult) :
    (validateFiles files).1 = files.filter (fun f => ALLOWED_TYPES.contains f.type) ∧
    (validateFiles files).2 =
      (files.filter (fun f => !ALLOWED_TYPES.contains f.type)).map
        (fun f => f.name ++ (": неверный формат (только JPEG и PNG)")) ∧
    (handleUpload files transport).perFileErrors = (validateFiles files).2 ∧
    ((validateFiles files).1 = [] →
      (handleUpload files transport).attempts = 0 ∧
      (handleUpload files transport).batch = [] ∧
      (handleUpload files transport).status = UploadFinal.failed) ∧
    ((validateFiles files).1 ≠ [] →
      (handleUpload files transport).batch = (validateFiles files).1) := by
  have hparts : (validateFiles files).1 =
      files.filter (fun f => ALLOWED_TYPES.contains f.type) ∧
      (validateFiles files).2 =
        (files.filter (fun f => !ALLOWED_TYPES.contains f.type)).map
          (fun f => f.name ++ (": неверный формат (только JPEG и PNG)")) := by
    induction files with
    | nil => exact ⟨rfl, rfl⟩
    | cons f fs ih =>
      by_cases h : f.type ∈ ALLOWED_TYPES <;>
        simp [validateFiles, List.filter_cons, h, ih.1, ih.2]
  refine ⟨hparts.1, hparts.2, ?_, ?_, ?_⟩
  · by_cases hl : (validateFiles files).1.length = 0 <;> simp [handleUpload, hl]
  · intro h0
    have hl : (validateFiles files).1.length = 0 := by rw [h0]; rfl
    simp [handleUpload, hl]
  · intro hne
    have hl : ¬(validateFiles files).1.length = 0 := by
      simpa [List.length_eq_zero] using hne
    simp [handleUpload, hl]

/-- Witness for C6: a three-file batch with one disallowed file keeps its
rejection while uploading the other two, and an all-invalid batch makes no
transport attempt and fails. -/
theorem upload_validation_short_circuit_witness :
    (handleUpload mixedFiles transportOk).perFileErrors = (validateFiles mixedFiles).2 ∧
    (handleUpload mixedFiles transportOk).batch = (validateFiles mixedFiles).1 ∧
    (handleUpload badFiles transportOk).attempts = 0 ∧
    (handleUpload badFiles transportOk).status = UploadFinal.failed :=
  ⟨(upload_validation_short_circuit mixedFiles transportOk).2.2.1,
   (upload_validation_short_circuit mixedFiles transportOk).2.2.2.2 (by decide),
   ((upload_validation_short_circuit badFiles transportOk).2.2.2.1 (by decide)).1,
   ((upload_validation_short_circuit badFiles transportOk).2.2.2.1 (by decide)).2.2⟩

end RksiSchedule
